import Mathlib

/-
Verification development for the cyber-glow-do productivity application.

The definitions below are a shallow embedding of the gamification /
progression logic and of the Pomodoro focus-timer state machine found in
`src/src/components/TaskManager.tsx` (the Supabase-backed variant of the
component, whose handlers are `addXP`, `checkAchievements`, `createTask`,
`updateTask`, `toggleTaskComplete`, `deleteTask`, `onFocusComplete`, and
the `PomodoroTimer` component with its tick effect, `toggle` and `reset`).

Conventions of the embedding:
- The asynchronous storage collaborator (Supabase) is modelled by an
  explicit `err : Option String` argument to each persisting operation:
  `none` means the call succeeded, `some msg` means it failed with
  message `msg`, exactly mirroring the `{ error }` result checked by the
  code.
- Toast notifications are modelled as a list of `Toast` events returned
  alongside the new state, in the order the code emits them.
- The deferred `setTimeout` calls inside `toggleTaskComplete` (the XP
  award at 100ms and the achievement evaluation at 200ms) are modelled
  sequentially, in their scheduled order, after the synchronous stats
  update.  Both callbacks are closures created by the render that
  handled the click, so both READ the stale render-time profile (and
  `checkAchievements` additionally the stale task list from before the
  completion was mirrored locally), while each `updateProfile` call
  WRITES only the fields it names onto the record produced by the
  earlier writes: the stats write touches the counters and streaks, the
  XP write touches `total_xp`/`current_level` computed from the stale
  base, and the achievement write (made only when new achievements were
  found) touches `achievements`/`total_xp`, again from the stale base.
- Calendar-date comparison (`new Date(x).toDateString() === new
  Date().toDateString()`) is abstracted by a predicate
  `isToday : String → Bool` on timestamp strings.
-/

namespace CyberGlow

/-- Task record, mirroring the `Task` interface of `TaskManager.tsx`
(Supabase variant, fields `updated_at` omitted as it never influences the
logic). -/
structure Task where
  id : String
  title : String
  description : Option String
  category : String
  priority : String
  due_date : Option String
  completed : Bool
  created_at : String
  completed_at : Option String
  user_id : String
deriving Repr, DecidableEq

/-- Progression record, mirroring the persisted profile row used by the
component (`total_xp`, `current_level`, `current_streak`,
`longest_streak`, `tasks_completed`, `focus_minutes`, `achievements`). -/
structure Profile where
  total_xp : Nat
  current_level : Nat
  current_streak : Nat
  longest_streak : Nat
  tasks_completed : Nat
  focus_minutes : Nat
  achievements : List String
deriving Repr, DecidableEq

/-- The profile a fresh account starts with: all counters at zero and the
derived level at one. -/
def freshProfile : Profile :=
  { total_xp := 0, current_level := 1, current_streak := 0, longest_streak := 0,
    tasks_completed := 0, focus_minutes := 0, achievements := [] }

/-- Observable toast notifications emitted by the component. -/
inductive Toast where
  | levelUp (level : Nat)
  | xpGain (amount : Nat) (reason : String)
  | achievementUnlocked (id : String)
  | errorToast (msg : String)
  | taskDeleted
deriving Repr, DecidableEq

/-- Combined in-memory state of the task manager: the local task list and
the user's progression record. -/
structure AppState where
  tasks : List Task
  profile : Profile
deriving Repr, DecidableEq

/-- Embedding of `addXP` (TaskManager.tsx, Supabase variant): adds the
amount to total XP, recomputes the level as `floor(xp / 100) + 1`, and
emits a level-up toast when the level grew plus an XP toast always. -/
def addXP (p : Profile) (amount : Nat) (reason : String) : Profile × List Toast :=
  let newXP := p.total_xp + amount
  let newLevel := newXP / 100 + 1
  let toasts :=
    (if p.current_level < newLevel then [Toast.levelUp newLevel] else []) ++
      [Toast.xpGain amount reason]
  ({ p with total_xp := newXP, current_level := newLevel }, toasts)

/-- Number of tasks in the list that are completed with a completion
timestamp falling on the current calendar day (the `completedToday`
filter of `checkAchievements`). -/
def completedTodayOf (tasks : List Task) (isToday : String → Bool) : Nat :=
  (tasks.filter fun t => t.completed && (t.completed_at.map isToday).getD false).length

/-- One-time XP bonus of each achievement in the static catalog. -/
def achievementXPOf (a : String) : Nat :=
  if a = "first_task" then 10
  else if a = "task_master" then 100
  else if a = "consistency_king" then 200
  else 0

/-- The list of achievements newly unlocked by one run of
`checkAchievements`, in catalog order, each guarded by its condition and
by not being unlocked already. -/
def newAchievementsOf (p : Profile) (tasks : List Task) (isToday : String → Bool)
    (completedTasksCount : Nat) : List String :=
  (if completedTasksCount = 1 ∧ "first_task" ∉ p.achievements then ["first_task"] else []) ++
  (if 10 ≤ completedTodayOf tasks isToday ∧ "task_master" ∉ p.achievements then ["task_master"] else []) ++
  (if 7 ≤ p.current_streak ∧ "consistency_king" ∉ p.achievements then ["consistency_king"] else [])

/-- Embedding of `checkAchievements` (TaskManager.tsx, Supabase variant):
computes the newly unlocked achievements, emits one unlock toast per new
achievement, and, when at least one unlocked, appends them to the
achievement list and adds the summed XP bonus to `total_xp`.  Note that,
exactly as in the source, `current_level` is NOT recomputed here. -/
def checkAchievements (p : Profile) (tasks : List Task) (isToday : String → Bool)
    (completedTasksCount : Nat) : Profile × List Toast :=
  let na := newAchievementsOf p tasks isToday completedTasksCount
  let toasts := na.map Toast.achievementUnlocked
  let p2 :=
    if na.length ≠ 0 then
      { p with achievements := p.achievements ++ na,
               total_xp := p.total_xp + (na.map achievementXPOf).sum }
    else p
  (p2, toasts)

/-- XP for completing a task of a given priority:
`({low: 10, medium: 15, high: 25})[task.priority] || 10`. -/
def xpForPriority (priority : String) : Nat :=
  if priority = "low" then 10
  else if priority = "medium" then 15
  else if priority = "high" then 25
  else 10

/-- Form data submitted by the task form, per the field set of the
`createTask` signature (`title`, `description`, `category`, `priority`,
`due_date`). -/
structure TaskFormData where
  title : String
  description : Option String
  category : String
  priority : String
  due_date : Option String
deriving Repr, DecidableEq

/-- The task row the storage collaborator returns for a fresh insert:
the submitted form fields plus generated id / creation timestamp / owner,
starting incomplete with no completion timestamp (row defaults; the
localStorage variant of `createTask` spells these defaults out). -/
def mkTask (d : TaskFormData) (id now uid : String) : Task :=
  { id := id, title := d.title, description := d.description,
    category := d.category, priority := d.priority, due_date := d.due_date,
    completed := false, created_at := now, completed_at := none, user_id := uid }

/-- Embedding of `createTask`: on storage failure the state is untouched
and one error toast is emitted; on success the returned row is prepended
to the task list and 5 XP are awarded. -/
def createTask (st : AppState) (d : TaskFormData) (err : Option String)
    (id now uid : String) : AppState × List Toast :=
  match err with
  | some msg => (st, [Toast.errorToast msg])
  | none =>
    let t := mkTask d id now uid
    let r := addXP st.profile 5 "Task created!"
    ({ tasks := t :: st.tasks, profile := r.1 }, r.2)

/-- Applying a task-form edit to an existing task: only the form fields
change (the `updates` object spread onto the task). -/
def applyFormUpdate (d : TaskFormData) (t : Task) : Task :=
  { t with title := d.title, description := d.description,
           category := d.category, priority := d.priority, due_date := d.due_date }

/-- Embedding of `updateTask` for an edit submitted through the task
form: on storage failure the state is untouched and one error toast is
emitted; on success the matching task is overwritten with the form
fields. -/
def updateTask (st : AppState) (taskId : String) (d : TaskFormData)
    (err : Option String) : AppState × List Toast :=
  match err with
  | some msg => (st, [Toast.errorToast msg])
  | none =>
    ({ st with tasks := st.tasks.map fun t => if t.id == taskId then applyFormUpdate d t else t }, [])

/-- The completion-flag update `toggleTaskComplete` applies to the
matching task. -/
def setCompletion (now : String) (isCompleting : Bool) (t : Task) : Task :=
  { t with completed := isCompleting,
           completed_at := if isCompleting then some now else none }

/-- Embedding of `toggleTaskComplete`: finds the task; on storage failure
emits one error toast and changes nothing; on success mirrors the flag
update locally, and when the transition is incomplete-to-complete it
synchronously writes the stats (tasks completed, streaks) computed from
the render-time profile, then runs the two deferred closures in their
scheduled order.  Both closures captured the render-time profile, so
`addXP` reads the stale base and writes only `total_xp`/`current_level`
onto the stats-updated record, and `checkAchievements` reads the stale
profile and stale task list and — only when it found new achievements —
writes `achievements` and a `total_xp` recomputed from the stale base
(clobbering the priority XP) without touching `current_level`. -/
def toggleTaskComplete (st : AppState) (taskId : String) (err : Option String)
    (now : String) (isToday : String → Bool) : AppState × List Toast :=
  match st.tasks.find? (fun t => t.id == taskId) with
  | none => (st, [])
  | some task =>
    match err with
    | some msg => (st, [Toast.errorToast msg])
    | none =>
      let isCompleting := !task.completed
      let tasks2 := st.tasks.map fun t => if t.id == taskId then setCompletion now isCompleting t else t
      if isCompleting then
        let p0 := st.profile
        let p1 :=
          { p0 with
              tasks_completed := p0.tasks_completed + 1,
              current_streak := p0.current_streak + 1,
              longest_streak := max p0.longest_streak (p0.current_streak + 1) }
        let r2 := addXP p0 (xpForPriority task.priority) "Task completed!"
        let p2 := { p1 with total_xp := r2.1.total_xp, current_level := r2.1.current_level }
        let r3 := checkAchievements p0 st.tasks isToday (p0.tasks_completed + 1)
        let p3 :=
          if (newAchievementsOf p0 st.tasks isToday (p0.tasks_completed + 1)).length ≠ 0 then
            { p2 with achievements := r3.1.achievements, total_xp := r3.1.total_xp }
          else p2
        ({ tasks := tasks2, profile := p3 }, r2.2 ++ r3.2)
      else
        ({ st with tasks := tasks2 }, [])

/-- Embedding of `deleteTask`: on storage failure one error toast and no
change; on success the task is removed from the list and a deletion
toast is shown.  The progression record is never touched. -/
def deleteTask (st : AppState) (taskId : String) (err : Option String) :
    AppState × List Toast :=
  match err with
  | some msg => (st, [Toast.errorToast msg])
  | none =>
    ({ st with tasks := st.tasks.filter fun t => t.id != taskId }, [Toast.taskDeleted])

/-- Embedding of `onFocusComplete`: awards `minutes * 2` XP and adds the
minutes to the cumulative focus counter. -/
def onFocusComplete (st : AppState) (minutes : Nat) : AppState × List Toast :=
  let r := addXP st.profile (minutes * 2) "focused work"
  ({ st with profile := { r.1 with focus_minutes := r.1.focus_minutes + minutes } }, r.2)

/-- A fixed form submission used to build concrete operation traces. -/
def demoTaskForm : TaskFormData :=
  { title := "task", description := none, category := "work", priority := "high", due_date := none }

/-- Performs a given number of successful task creations (distinct
generated ids) starting from a state, as a user repeatedly submitting the
form would. -/
def createMany : Nat → AppState → AppState
  | 0, st => st
  | n + 1, st => createMany n (createTask st demoTaskForm none (toString n) "t0" "u").1

/-- State of the `PomodoroTimer` component: remaining minutes and
seconds, whether the countdown is running, whether the timer is in break
mode, and the completed-work-session counter. -/
structure TimerState where
  minutes : Nat
  seconds : Nat
  isActive : Bool
  isBreak : Bool
  sessionCount : Nat
deriving Repr, DecidableEq

/-- Observable events of the timer: the `onSessionComplete` callback into
the progression manager, and the toasts. -/
inductive TimerEvent where
  | sessionComplete (minutes : Nat)
  | focusToast (minutes : Nat)
  | breakToast (minutes : Nat)
  | breakOverToast
deriving Repr, DecidableEq

/-- Recognizes the work-session-complete callback event. -/
def isSessionCompleteEv : TimerEvent → Bool
  | TimerEvent.sessionComplete _ => true
  | _ => false

/-- The break length chosen right after a work session completes:
`sessionCount % 4 === 3 ? 30 : 5`, evaluated on the pre-increment
session counter. -/
def breakLen (count : Nat) : Nat :=
  if count % 4 = 3 then 30 else 5

/-- One firing of the countdown interval: decrement seconds, borrowing a
minute when seconds hit zero. -/
def countdown (s : TimerState) : TimerState :=
  if 0 < s.seconds then { s with seconds := s.seconds - 1 }
  else if 0 < s.minutes then { s with minutes := s.minutes - 1, seconds := 59 }
  else s

/-- The session-completed branch of the timer effect, which the component
runs whenever it observes an active timer at 00:00.  In work mode it
stops, fires `onSessionComplete(25)`, shows the focus toast, increments
the session counter, switches to break mode with the computed break
length, and shows the break toast.  In break mode it stops, shows the
break-over toast, and switches back to work mode at 25:00. -/
def handleZero (s : TimerState) : TimerState × List TimerEvent :=
  if s.isBreak then
    ({ s with isActive := false, isBreak := false, minutes := 25, seconds := 0 },
     [TimerEvent.breakOverToast])
  else
    let b := breakLen s.sessionCount
    ({ s with isActive := false, isBreak := true, sessionCount := s.sessionCount + 1,
              minutes := b, seconds := 0 },
     [TimerEvent.sessionComplete 25, TimerEvent.focusToast 25, TimerEvent.breakToast b])

/-- One second of wall-clock time: while active with time remaining, the
interval decrements the clock, and if that lands the active timer on
00:00 the re-rendered effect immediately runs the completion branch.  An
active timer already at 00:00 also completes; an inactive timer is
unchanged. -/
def tick (s : TimerState) : TimerState × List TimerEvent :=
  if s.isActive = true then
    if 0 < s.minutes ∨ 0 < s.seconds then
      let s2 := countdown s
      if s2.minutes = 0 ∧ s2.seconds = 0 then handleZero s2 else (s2, [])
    else handleZero s
  else (s, [])

/-- Embedding of the timer's `toggle`: flips running/paused; if that
exposes an active timer at 00:00 the completion effect fires. -/
def toggle (s : TimerState) : TimerState × List TimerEvent :=
  let s2 := { s with isActive := !s.isActive }
  if s2.isActive = true ∧ s2.minutes = 0 ∧ s2.seconds = 0 then handleZero s2 else (s2, [])

/-- Embedding of the timer's `reset`: stops the countdown and restores
the nominal duration of the current mode; `(sessionCount - 1) % 4 === 3`
picks the break length in break mode (JS remainder on `sessionCount - 1`
and Nat truncated subtraction agree here: at `sessionCount = 0` both make
the test false). -/
def reset (s : TimerState) : TimerState :=
  { s with isActive := false,
           minutes := if s.isBreak then (if (s.sessionCount - 1) % 4 = 3 then 30 else 5) else 25,
           seconds := 0 }

/-- The state the timer component mounts with: 25:00, paused, work mode,
zero completed sessions. -/
def initTimer : TimerState :=
  { minutes := 25, seconds := 0, isActive := false, isBreak := false, sessionCount := 0 }

/-- Runs the timer for the given number of one-second ticks, collecting
all emitted events in order. -/
def runTicks : Nat → TimerState → TimerState × List TimerEvent
  | 0, s => (s, [])
  | n + 1, s =>
    let r := tick s
    let r2 := runTicks n r.1
    (r2.1, r.2 ++ r2.2)

/-- Timer states reachable from the mount state through the public
operations: ticks of the running clock, the start/pause button, and the
reset button. -/
inductive Reachable : TimerState → Prop where
  | init : Reachable initTimer
  | tick {s : TimerState} : Reachable s → Reachable (tick s).1
  | toggle {s : TimerState} : Reachable s → Reachable (toggle s).1
  | reset {s : TimerState} : Reachable s → Reachable (reset s)

theorem runTicks_succ (n : Nat) (s : TimerState) :
    runTicks (n + 1) s =
      ((runTicks n (tick s).1).1, (tick s).2 ++ (runTicks n (tick s).1).2) := rfl

theorem runTicks_one (s : TimerState) :
    runTicks 1 s = ((tick s).1, (tick s).2) := by
  rw [show (1 : Nat) = 0 + 1 from rfl, runTicks_succ]
  simp [runTicks]

theorem runTicks_add (a b : Nat) (s : TimerState) :
    runTicks (a + b) s =
      ((runTicks b (runTicks a s).1).1,
       (runTicks a s).2 ++ (runTicks b (runTicks a s).1).2) := by
  induction a generalizing s with
  | zero => simp [runTicks]
  | succ n ih =>
    rw [show n + 1 + b = (n + b) + 1 from by omega]
    rw [runTicks_succ, runTicks_succ, ih]
    simp [List.append_assoc]

theorem tick_inactive (s : TimerState) (h : s.isActive = false) : tick s = (s, []) := by
  simp [tick, h]

theorem tick_sec_pos (m k c : Nat) (br : Bool) (h : 1 ≤ m ∨ 1 ≤ k) :
    tick ⟨m, k + 1, true, br, c⟩ = (⟨m, k, true, br, c⟩, []) := by
  have h2 : ¬(m = 0 ∧ k = 0) := by omega
  simp [tick, countdown, h2]

theorem tick_min (m c : Nat) (br : Bool) :
    tick ⟨m + 1, 0, true, br, c⟩ = (⟨m, 59, true, br, c⟩, []) := by
  simp [tick, countdown]

theorem tick_fire_work (c : Nat) :
    tick ⟨0, 1, true, false, c⟩ =
      (⟨breakLen c, 0, false, true, c + 1⟩,
       [TimerEvent.sessionComplete 25, TimerEvent.focusToast 25,
        TimerEvent.breakToast (breakLen c)]) := by
  simp [tick, countdown, handleZero]

theorem tick_fire_break (c : Nat) :
    tick ⟨0, 1, true, true, c⟩ = (⟨25, 0, false, false, c⟩, [TimerEvent.breakOverToast]) := by
  simp [tick, countdown, handleZero]

theorem ticks_secs (m c : Nat) (br : Bool) (hm : 1 ≤ m) :
    ∀ k, runTicks k ⟨m, k, true, br, c⟩ = (⟨m, 0, true, br, c⟩, []) := by
  intro k
  induction k with
  | zero => rfl
  | succ k ih =>
    rw [runTicks_succ, tick_sec_pos m k c br (Or.inl hm)]
    simp [ih]

theorem ticks_secs0 (c : Nat) (br : Bool) :
    ∀ k, runTicks k ⟨0, k + 1, true, br, c⟩ = (⟨0, 1, true, br, c⟩, []) := by
  intro k
  induction k with
  | zero => rfl
  | succ k ih =>
    rw [runTicks_succ, tick_sec_pos 0 (k + 1) c br (Or.inr (by omega))]
    simp [ih]

theorem minute_step (m c : Nat) (br : Bool) (hm : 1 ≤ m) :
    runTicks 60 ⟨m + 1, 0, true, br, c⟩ = (⟨m, 0, true, br, c⟩, []) := by
  rw [show (60 : Nat) = 59 + 1 from rfl, runTicks_succ, tick_min m c br]
  simp [ticks_secs m c br hm 59]

theorem minutes_descend (c : Nat) :
    ∀ j, runTicks (60 * j) ⟨j + 1, 0, true, false, c⟩ = (⟨1, 0, true, false, c⟩, []) := by
  intro j
  induction j with
  | zero => rfl
  | succ j ih =>
    rw [show 60 * (j + 1) = 60 + 60 * j from by ring]
    rw [runTicks_add, minute_step (j + 1) c false (by omega)]
    simp [ih]

theorem last_minute_events (c : Nat) :
    runTicks 60 ⟨1, 0, true, false, c⟩ =
      (⟨breakLen c, 0, false, true, c + 1⟩,
       [TimerEvent.sessionComplete 25, TimerEvent.focusToast 25,
        TimerEvent.breakToast (breakLen c)]) := by
  have h3 := tick_min 0 c false
  norm_num at h3
  have h2 := ticks_secs0 c false 58
  norm_num at h2
  rw [show (60 : Nat) = 59 + 1 from rfl, runTicks_succ, h3]
  have hadd := runTicks_add 58 1 (⟨0, 59, true, false, c⟩ : TimerState)
  norm_num at hadd
  simp only [hadd, h2]
  simp [runTicks_one, tick_fire_work c]

theorem run_1499 (c : Nat) :
    runTicks 1499 ⟨25, 0, true, false, c⟩ = (⟨0, 1, true, false, c⟩, []) := by
  have hd := minutes_descend c 24
  norm_num at hd
  have h3 := tick_min 0 c false
  norm_num at h3
  have h2 := ticks_secs0 c false 58
  norm_num at h2
  have hadd := runTicks_add 1440 59 (⟨25, 0, true, false, c⟩ : TimerState)
  norm_num at hadd
  rw [hadd, hd]
  have hadd2 := runTicks_add 1 58 (⟨1, 0, true, false, c⟩ : TimerState)
  norm_num at hadd2
  rw [hadd2, runTicks_one, h3]
  simp [h2]

theorem run_1500 (c : Nat) :
    runTicks 1500 ⟨25, 0, true, false, c⟩ =
      (⟨breakLen c, 0, false, true, c + 1⟩,
       [TimerEvent.sessionComplete 25, TimerEvent.focusToast 25,
        TimerEvent.breakToast (breakLen c)]) := by
  have hd := minutes_descend c 24
  norm_num at hd
  have hadd := runTicks_add 1440 60 (⟨25, 0, true, false, c⟩ : TimerState)
  norm_num at hadd
  rw [hadd, hd]
  simp [last_minute_events c]

theorem countdown_isBreak (s : TimerState) : (countdown s).isBreak = s.isBreak := by
  unfold countdown
  split_ifs <;> rfl

theorem countdown_sessionCount (s : TimerState) : (countdown s).sessionCount = s.sessionCount := by
  unfold countdown
  split_ifs <;> rfl

theorem handleZero_break_pos (s : TimerState) :
    (handleZero s).1.isBreak = true → 1 ≤ (handleZero s).1.sessionCount := by
  unfold handleZero
  split_ifs with h <;> simp

theorem tick_break_pos (s : TimerState) (h : s.isBreak = true → 1 ≤ s.sessionCount) :
    (tick s).1.isBreak = true → 1 ≤ (tick s).1.sessionCount := by
  simp only [tick]
  split_ifs with h1 h2 h3
  · exact handleZero_break_pos (countdown s)
  · simpa [countdown_isBreak, countdown_sessionCount] using h
  · exact handleZero_break_pos s
  · exact h

theorem toggle_break_pos (s : TimerState) (h : s.isBreak = true → 1 ≤ s.sessionCount) :
    (toggle s).1.isBreak = true → 1 ≤ (toggle s).1.sessionCount := by
  simp only [toggle]
  split_ifs with h1
  · exact handleZero_break_pos _
  · exact h

/-- Invariant of the timer state machine: the break mode is only ever
entered by completing a work session, so in break mode at least one
session has been completed. -/
theorem reachable_break_pos (s : TimerState) (h : Reachable s) :
    s.isBreak = true → 1 ≤ s.sessionCount := by
  induction h with
  | init => simp [initTimer]
  | tick _ ih => exact tick_break_pos _ ih
  | toggle _ ih => exact toggle_break_pos _ ih
  | reset _ ih => simpa [reset] using ih

/-- C3: when a work session completes, the break duration is 30 minutes
exactly when the post-increment session count is a multiple of 4 and
5 minutes otherwise; in particular session number 4 (pre-increment count
3) starts a 30-minute break and sessions 1, 2, 3 start 5-minute
breaks. -/
theorem break_duration_c3 (s : TimerState) (h : s.isBreak = false) :
    (handleZero s).1.minutes = (if (s.sessionCount + 1) % 4 = 0 then 30 else 5)
  ∧ (handleZero s).1.sessionCount = s.sessionCount + 1
  ∧ (handleZero s).1.isBreak = true
  ∧ (handleZero ⟨0, 0, true, false, 3⟩).1.minutes = 30
  ∧ (handleZero ⟨0, 0, true, false, 0⟩).1.minutes = 5
  ∧ (handleZero ⟨0, 0, true, false, 1⟩).1.minutes = 5
  ∧ (handleZero ⟨0, 0, true, false, 2⟩).1.minutes = 5 := by
  refine ⟨?_, ?_, ?_, by decide, by decide, by decide, by decide⟩
  · simp only [handleZero, h, Bool.false_eq_true, if_false, breakLen]
    split_ifs <;> omega
  · simp [handleZero, h]
  · simp [handleZero, h]

/-- Witness for C3 at the state completing work session number 4. -/
theorem break_duration_c3_witness :
    (⟨0, 0, true, false, 3⟩ : TimerState).isBreak = false
  ∧ ((handleZero ⟨0, 0, true, false, 3⟩).1.minutes
       = (if ((⟨0, 0, true, false, 3⟩ : TimerState).sessionCount + 1) % 4 = 0 then 30 else 5)
     ∧ (handleZero ⟨0, 0, true, false, 3⟩).1.sessionCount
         = (⟨0, 0, true, false, 3⟩ : TimerState).sessionCount + 1
     ∧ (handleZero ⟨0, 0, true, false, 3⟩).1.isBreak = true
     ∧ (handleZero ⟨0, 0, true, false, 3⟩).1.minutes = 30
     ∧ (handleZero ⟨0, 0, true, false, 0⟩).1.minutes = 5
     ∧ (handleZero ⟨0, 0, true, false, 1⟩).1.minutes = 5
     ∧ (handleZero ⟨0, 0, true, false, 2⟩).1.minutes = 5) :=
  ⟨rfl, break_duration_c3 ⟨0, 0, true, false, 3⟩ rfl⟩

/-- C4: a fresh 25:00 work session run for 1499 ticks stands at 00:01
with no events; the 1500th tick reaches 00:00 and completes the session,
firing the work-session-complete callback exactly once and reporting 25
minutes; the work completion handler always reports the nominal 25
minutes whatever the clock says; and a completing break fires no
callback and leaves the session counter unchanged. -/
theorem pomodoro_work_run_c4 (c : Nat) :
    runTicks 1499 ⟨25, 0, true, false, c⟩ = (⟨0, 1, true, false, c⟩, [])
  ∧ runTicks 1500 ⟨25, 0, true, false, c⟩ =
      (⟨breakLen c, 0, false, true, c + 1⟩,
       [TimerEvent.sessionComplete 25, TimerEvent.focusToast 25,
        TimerEvent.breakToast (breakLen c)])
  ∧ (runTicks 1500 ⟨25, 0, true, false, c⟩).2.filter isSessionCompleteEv
      = [TimerEvent.sessionComplete 25]
  ∧ (∀ m sec cnt : Nat, ∀ act : Bool,
      (handleZero ⟨m, sec, act, false, cnt⟩).2.filter isSessionCompleteEv
        = [TimerEvent.sessionComplete 25])
  ∧ tick ⟨0, 1, true, true, c⟩ = (⟨25, 0, false, false, c⟩, [TimerEvent.breakOverToast]) := by
  refine ⟨run_1499 c, run_1500 c, ?_, ?_, tick_fire_break c⟩
  · rw [run_1500 c]
    simp [isSessionCompleteEv]
  · intro m sec cnt act
    simp [handleZero, isSessionCompleteEv]

/-- C5: on any reachable timer state, reset stops the countdown and
restores the nominal duration of the current mode (25:00 in work mode,
and in break mode 30 minutes exactly when the session counter is a
multiple of 4, else 5), without touching the mode flag or the session
counter. -/
theorem reset_c5 (s : TimerState) (h : Reachable s) :
    (reset s).isActive = false
  ∧ (reset s).seconds = 0
  ∧ (reset s).isBreak = s.isBreak
  ∧ (reset s).sessionCount = s.sessionCount
  ∧ (reset s).minutes
      = (if s.isBreak = true then (if s.sessionCount % 4 = 0 then 30 else 5) else 25) := by
  refine ⟨rfl, rfl, rfl, rfl, ?_⟩
  show (if s.isBreak then (if (s.sessionCount - 1) % 4 = 3 then 30 else 5) else 25) = _
  by_cases hb : s.isBreak = true
  · have hc := reachable_break_pos s h hb
    simp only [hb, if_true]
    split_ifs <;> omega
  · simp [hb]

/-- Witness for C5 at the mount state of the timer. -/
theorem reset_c5_witness :
    (reset initTimer).isActive = false
  ∧ (reset initTimer).seconds = 0
  ∧ (reset initTimer).isBreak = initTimer.isBreak
  ∧ (reset initTimer).sessionCount = initTimer.sessionCount
  ∧ (reset initTimer).minutes
      = (if initTimer.isBreak = true then (if initTimer.sessionCount % 4 = 0 then 30 else 5) else 25) :=
  reset_c5 initTimer Reachable.init

/-- The task-record invariant claimed by the data model: the completion
flag is set exactly when the completion timestamp is present. -/
abbrev TaskOK (t : Task) : Prop := t.completed = true ↔ t.completed_at ≠ none

theorem addXP_current_streak (p : Profile) (a : Nat) (r : String) :
    (addXP p a r).1.current_streak = p.current_streak := rfl

theorem addXP_longest_streak (p : Profile) (a : Nat) (r : String) :
    (addXP p a r).1.longest_streak = p.longest_streak := rfl

theorem checkAchievements_current_streak (p : Profile) (ts : List Task)
    (f : String → Bool) (n : Nat) :
    (checkAchievements p ts f n).1.current_streak = p.current_streak := by
  simp only [checkAchievements]
  split_ifs <;> rfl

theorem checkAchievements_longest_streak (p : Profile) (ts : List Task)
    (f : String → Bool) (n : Nat) :
    (checkAchievements p ts f n).1.longest_streak = p.longest_streak := by
  simp only [checkAchievements]
  split_ifs <;> rfl

/-- C1 (violated by the code): starting from a fresh profile, 17
successful task creations (5 XP each, 85 XP total) followed by completing
one high-priority task.  The deferred XP award reads the stale 85 and
writes total 110 at level 2; the deferred achievement evaluation then
reads the same stale 85 and writes total 85 + 10 = 95 (clobbering the
priority XP) without recomputing the level, leaving the record at 95
total XP and level 2 where the invariant demands `95 / 100 + 1 = 1`. -/
theorem level_invariant_c1 :
    (toggleTaskComplete (createMany 17 ⟨[], freshProfile⟩) "0" none "d1"
        (fun _ => false)).1.profile.total_xp = 95
  ∧ (toggleTaskComplete (createMany 17 ⟨[], freshProfile⟩) "0" none "d1"
        (fun _ => false)).1.profile.current_level = 2
  ∧ (toggleTaskComplete (createMany 17 ⟨[], freshProfile⟩) "0" none "d1"
        (fun _ => false)).1.profile.current_level
      ≠ (toggleTaskComplete (createMany 17 ⟨[], freshProfile⟩) "0" none "d1"
          (fun _ => false)).1.profile.total_xp / 100 + 1 :=
  ⟨by decide, by decide, by decide⟩

/-- C2: every public task operation preserves the invariant that a task
is flagged complete exactly when its completion timestamp is set. -/
theorem completed_iff_c2 (st : AppState) (hok : ∀ t ∈ st.tasks, TaskOK t)
    (d : TaskFormData) (err : Option String) (id now uid taskId : String)
    (isToday : String → Bool) :
    (∀ t ∈ (createTask st d err id now uid).1.tasks, TaskOK t)
  ∧ (∀ t ∈ (updateTask st taskId d err).1.tasks, TaskOK t)
  ∧ (∀ t ∈ (toggleTaskComplete st taskId err now isToday).1.tasks, TaskOK t) := by
  refine ⟨?_, ?_, ?_⟩
  · cases err with
    | some msg => simpa [createTask] using hok
    | none =>
      intro t ht
      simp only [createTask] at ht
      rcases List.mem_cons.mp ht with rfl | hmem
      · simp [TaskOK, mkTask]
      · exact hok t hmem
  · cases err with
    | some msg => simpa [updateTask] using hok
    | none =>
      intro t ht
      simp only [updateTask] at ht
      rcases List.mem_map.mp ht with ⟨u, hu, rfl⟩
      by_cases hid : (u.id == taskId) = true
      · simp only [hid, if_true]
        simpa [TaskOK, applyFormUpdate] using hok u hu
      · simp only [hid, if_false]
        exact hok u hu
  · rcases hf : st.tasks.find? (fun t => t.id == taskId) with _ | task
    · simpa [toggleTaskComplete, hf] using hok
    · cases err with
      | some msg => simpa [toggleTaskComplete, hf] using hok
      | none =>
        intro t ht
        rcases hcc : task.completed with _ | _ <;>
          · simp only [toggleTaskComplete, hf, hcc] at ht
            simp only [Bool.not_false, Bool.not_true, if_true, if_false] at ht
            rcases List.mem_map.mp ht with ⟨u, hu, rfl⟩
            by_cases hid : (u.id == taskId) = true
            · simp only [hid, if_true]
              simp [TaskOK, setCompletion]
            · simp only [hid, if_false]
              exact hok u hu

/-- C6: after any public operation, the longest streak still dominates
the current streak and the longest streak has not decreased. -/
theorem streaks_c6 (st : AppState)
    (h : st.profile.current_streak ≤ st.profile.longest_streak)
    (d : TaskFormData) (err : Option String) (id now uid taskId reason : String)
    (isToday : String → Bool) (mins amount : Nat) :
    ((toggleTaskComplete st taskId err now isToday).1.profile.current_streak
        ≤ (toggleTaskComplete st taskId err now isToday).1.profile.longest_streak
      ∧ st.profile.longest_streak
          ≤ (toggleTaskComplete st taskId err now isToday).1.profile.longest_streak)
  ∧ ((createTask st d err id now uid).1.profile.current_streak
        ≤ (createTask st d err id now uid).1.profile.longest_streak
      ∧ st.profile.longest_streak ≤ (createTask st d err id now uid).1.profile.longest_streak)
  ∧ ((updateTask st taskId d err).1.profile.current_streak
        ≤ (updateTask st taskId d err).1.profile.longest_streak
      ∧ st.profile.longest_streak ≤ (updateTask st taskId d err).1.profile.longest_streak)
  ∧ ((deleteTask st taskId err).1.profile.current_streak
        ≤ (deleteTask st taskId err).1.profile.longest_streak
      ∧ st.profile.longest_streak ≤ (deleteTask st taskId err).1.profile.longest_streak)
  ∧ ((onFocusComplete st mins).1.profile.current_streak
        ≤ (onFocusComplete st mins).1.profile.longest_streak
      ∧ st.profile.longest_streak ≤ (onFocusComplete st mins).1.profile.longest_streak)
  ∧ ((addXP st.profile amount reason).1.current_streak
        ≤ (addXP st.profile amount reason).1.longest_streak
      ∧ st.profile.longest_streak ≤ (addXP st.profile amount reason).1.longest_streak) := by
  refine ⟨?_, ?_, ?_, ?_, ?_, ?_⟩
  · rcases hf : st.tasks.find? (fun t => t.id == taskId) with _ | task
    · simp only [toggleTaskComplete, hf]
      exact ⟨h, le_rfl⟩
    · cases err with
      | some msg =>
        simp only [toggleTaskComplete, hf]
        exact ⟨h, le_rfl⟩
      | none =>
        rcases hcc : task.completed with _ | _
        · simp only [toggleTaskComplete, hf, hcc, Bool.not_false, if_true]
          constructor
          · split_ifs <;> exact le_max_right _ _
          · split_ifs <;> exact le_max_left _ _
        · simp only [toggleTaskComplete, hf, hcc, Bool.not_true, if_false]
          exact ⟨h, le_rfl⟩
  · cases err with
    | some msg => exact ⟨h, le_rfl⟩
    | none =>
      simp only [createTask]
      rw [addXP_current_streak, addXP_longest_streak]
      exact ⟨h, le_rfl⟩
  · cases err with
    | some msg => exact ⟨h, le_rfl⟩
    | none => exact ⟨h, le_rfl⟩
  · cases err with
    | some msg => exact ⟨h, le_rfl⟩
    | none => exact ⟨h, le_rfl⟩
  · simp only [onFocusComplete]
    rw [show ∀ p : Profile, ∀ x, ({ p with focus_minutes := x } : Profile).current_streak
          = p.current_streak from fun _ _ => rfl]
    exact ⟨h, le_rfl⟩
  · exact ⟨h, le_rfl⟩

/-- Witness for C2 on the empty fresh state. -/
theorem completed_iff_c2_witness :
    (∀ t ∈ (⟨[], freshProfile⟩ : AppState).tasks, TaskOK t)
  ∧ ((∀ t ∈ (createTask ⟨[], freshProfile⟩ demoTaskForm none "1" "d0" "u").1.tasks, TaskOK t)
     ∧ (∀ t ∈ (updateTask ⟨[], freshProfile⟩ "1" demoTaskForm none).1.tasks, TaskOK t)
     ∧ (∀ t ∈ (toggleTaskComplete ⟨[], freshProfile⟩ "1" none "d1" (fun _ => false)).1.tasks,
          TaskOK t)) :=
  ⟨by simp, completed_iff_c2 ⟨[], freshProfile⟩ (by simp) demoTaskForm none "1" "d0" "u" "1"
    (fun _ => false)⟩

/-- Witness for C6 on the fresh state, reading off the task-completion
conjunct. -/
theorem streaks_c6_witness :
    (⟨[], freshProfile⟩ : AppState).profile.current_streak
      ≤ (⟨[], freshProfile⟩ : AppState).profile.longest_streak
  ∧ ((toggleTaskComplete ⟨[], freshProfile⟩ "1" none "d1" (fun _ => false)).1.profile.current_streak
      ≤ (toggleTaskComplete ⟨[], freshProfile⟩ "1" none "d1" (fun _ => false)).1.profile.longest_streak
     ∧ (⟨[], freshProfile⟩ : AppState).profile.longest_streak
      ≤ (toggleTaskComplete ⟨[], freshProfile⟩ "1" none "d1" (fun _ => false)).1.profile.longest_streak) :=
  ⟨by decide,
   (streaks_c6 ⟨[], freshProfile⟩ (by decide) demoTaskForm none "1" "d1" "u" "1" "r"
     (fun _ => false) 3 4).1⟩

theorem mem_newAchievements (p : Profile) (tasks : List Task) (f : String → Bool) (n : Nat)
    (a : String) (ha : a ∈ newAchievementsOf p tasks f n) : a ∉ p.achievements := by
  unfold newAchievementsOf at ha
  rcases List.mem_append.mp ha with h12 | h3
  · rcases List.mem_append.mp h12 with h1 | h2
    · split_ifs at h1 with hc
      · have := List.mem_singleton.mp h1
        subst this
        exact hc.2
      · exact absurd h1 (List.not_mem_nil a)
    · split_ifs at h2 with hc
      · have := List.mem_singleton.mp h2
        subst this
        exact hc.2
      · exact absurd h2 (List.not_mem_nil a)
  · split_ifs at h3 with hc
    · have := List.mem_singleton.mp h3
      subst this
      exact hc.2
    · exact absurd h3 (List.not_mem_nil a)

theorem newAchievements_nodup (p : Profile) (tasks : List Task) (f : String → Bool) (n : Nat) :
    (newAchievementsOf p tasks f n).Nodup := by
  unfold newAchievementsOf
  split_ifs <;> decide

/-- C7: achievement evaluation is idempotent per achievement: one
already in the unlocked set is never unlocked again, gets no duplicate
entry, no duplicate unlock toast, contributes nothing to the XP bonus
(which sums exactly the genuinely new achievements), and the unlocked
set stays duplicate-free. -/
theorem achievements_c7 (p : Profile) (tasks : List Task) (isToday : String → Bool) (n : Nat)
    (a : String) (ha : a ∈ p.achievements) (hnd : p.achievements.Nodup) :
    a ∉ newAchievementsOf p tasks isToday n
  ∧ (checkAchievements p tasks isToday n).1.achievements.count a = p.achievements.count a
  ∧ Toast.achievementUnlocked a ∉ (checkAchievements p tasks isToday n).2
  ∧ (checkAchievements p tasks isToday n).1.total_xp
      = p.total_xp + ((newAchievementsOf p tasks isToday n).map achievementXPOf).sum
  ∧ (checkAchievements p tasks isToday n).1.achievements.Nodup := by
  have hnot : a ∉ newAchievementsOf p tasks isToday n :=
    fun hin => mem_newAchievements p tasks isToday n a hin ha
  refine ⟨hnot, ?_, ?_, ?_, ?_⟩
  · simp only [checkAchievements]
    split_ifs with hl
    · simp [List.count_append, List.count_eq_zero.mpr hnot]
    · rfl
  · simp only [checkAchievements]
    intro hmem
    rcases List.mem_map.mp hmem with ⟨b, hb, heq⟩
    injection heq with hba
    subst hba
    exact hnot hb
  · simp only [checkAchievements]
    split_ifs with hl
    · rfl
    · have hz : newAchievementsOf p tasks isToday n = [] :=
        List.length_eq_zero.mp (by omega)
      rw [hz]
      simp
  · simp only [checkAchievements]
    split_ifs with hl
    · refine List.nodup_append.mpr ⟨hnd, newAchievements_nodup p tasks isToday n, ?_⟩
      intro x hx hx2
      exact mem_newAchievements p tasks isToday n x hx2 hx
    · exact hnd

/-- Witness for C7 on a profile that already unlocked first_task, with
its condition satisfied again. -/
theorem achievements_c7_witness :
    "first_task" ∈ ({ freshProfile with achievements := ["first_task"] } : Profile).achievements
  ∧ ({ freshProfile with achievements := ["first_task"] } : Profile).achievements.Nodup
  ∧ "first_task" ∉ newAchievementsOf { freshProfile with achievements := ["first_task"] } []
      (fun _ => false) 1 :=
  ⟨by decide, by decide,
   (achievements_c7 { freshProfile with achievements := ["first_task"] } [] (fun _ => false) 1
     "first_task" (by decide) (by decide)).1⟩

/-- C8: a storage failure during task creation leaves the whole state
unchanged, shows exactly one failure notification, and awards no XP. -/
theorem create_failure_c8 (st : AppState) (d : TaskFormData) (msg : String)
    (id now uid : String) :
    createTask st d (some msg) id now uid = (st, [Toast.errorToast msg])
  ∧ (createTask st d (some msg) id now uid).1.tasks = st.tasks
  ∧ (createTask st d (some msg) id now uid).2.length = 1
  ∧ (createTask st d (some msg) id now uid).1.profile.total_xp = st.profile.total_xp
  ∧ (createTask st d (some msg) id now uid).1.profile.current_level = st.profile.current_level :=
  ⟨rfl, rfl, rfl, rfl, rfl⟩

theorem length_filter_ne (tid : String) (l : List Task) :
    (l.filter fun t => t.id != tid).length + l.countP (fun t => t.id == tid) = l.length := by
  induction l with
  | nil => rfl
  | cons t l ih =>
    cases hc : (t.id == tid)
    · simp only [bne] at ih ⊢
      simp [List.filter_cons, List.countP_cons, hc]
      omega
    · simp only [bne] at ih ⊢
      simp [List.filter_cons, List.countP_cons, hc]
      omega

theorem countP_id_eq_count (tid : String) (l : List Task) :
    l.countP (fun t => t.id == tid) = (l.map Task.id).count tid := by
  induction l with
  | nil => rfl
  | cons t l ih =>
    simp only [List.countP_cons, List.map_cons, List.count_cons, ih]

/-- C9: deleting a task present in the list (ids being unique) shrinks
the list by exactly one and leaves the entire progression record
untouched, with no condition on whether the task was complete. -/
theorem delete_frame_c9 (st : AppState) (taskId : String)
    (hnd : (st.tasks.map Task.id).Nodup) (hmem : taskId ∈ st.tasks.map Task.id) :
    (deleteTask st taskId none).1.tasks.length + 1 = st.tasks.length
  ∧ (deleteTask st taskId none).1.profile = st.profile
  ∧ (deleteTask st taskId none).2 = [Toast.taskDeleted] := by
  refine ⟨?_, rfl, rfl⟩
  have h1 : (st.tasks.map Task.id).count taskId = 1 := by
    have hle := List.nodup_iff_count_le_one.mp hnd taskId
    have hge : 0 < (st.tasks.map Task.id).count taskId := List.count_pos_iff.mpr hmem
    omega
  have h2 := length_filter_ne taskId st.tasks
  rw [countP_id_eq_count, h1] at h2
  simp only [deleteTask]
  omega

/-- Witness for C9 on a one-task list. -/
theorem delete_frame_c9_witness :
    ((⟨[mkTask demoTaskForm "1" "d0" "u"], freshProfile⟩ : AppState).tasks.map Task.id).Nodup
  ∧ "1" ∈ ((⟨[mkTask demoTaskForm "1" "d0" "u"], freshProfile⟩ : AppState).tasks.map Task.id)
  ∧ ((deleteTask ⟨[mkTask demoTaskForm "1" "d0" "u"], freshProfile⟩ "1" none).1.tasks.length + 1
       = (⟨[mkTask demoTaskForm "1" "d0" "u"], freshProfile⟩ : AppState).tasks.length
     ∧ (deleteTask ⟨[mkTask demoTaskForm "1" "d0" "u"], freshProfile⟩ "1" none).1.profile
         = (⟨[mkTask demoTaskForm "1" "d0" "u"], freshProfile⟩ : AppState).profile
     ∧ (deleteTask ⟨[mkTask demoTaskForm "1" "d0" "u"], freshProfile⟩ "1" none).2
         = [Toast.taskDeleted]) :=
  ⟨by decide, by decide,
   delete_frame_c9 ⟨[mkTask demoTaskForm "1" "d0" "u"], freshProfile⟩ "1" (by decide) (by decide)⟩

/-- C10: toggling a completed task back to incomplete only clears the
completion flag and timestamp on that task; it emits no notification and
leaves every field of the progression record unchanged. -/
theorem untoggle_frame_c10 (st : AppState) (taskId now : String) (isToday : String → Bool)
    (t0 : Task) (hfind : st.tasks.find? (fun t => t.id == taskId) = some t0)
    (hc : t0.completed = true) :
    (toggleTaskComplete st taskId none now isToday).1.profile = st.profile
  ∧ (toggleTaskComplete st taskId none now isToday).2 = []
  ∧ (toggleTaskComplete st taskId none now isToday).1.tasks
      = st.tasks.map (fun t => if t.id == taskId then
          { t with completed := false, completed_at := none } else t) := by
  simp only [toggleTaskComplete, hfind, hc, Bool.not_true, if_false]
  refine ⟨rfl, rfl, ?_⟩
  simp [setCompletion]

/-- Witness for C10 on a one-task list holding a completed task. -/
theorem untoggle_frame_c10_witness :
    (⟨[setCompletion "d1" true (mkTask demoTaskForm "1" "d0" "u")], freshProfile⟩ : AppState).tasks.find?
        (fun t => t.id == "1") = some (setCompletion "d1" true (mkTask demoTaskForm "1" "d0" "u"))
  ∧ (setCompletion "d1" true (mkTask demoTaskForm "1" "d0" "u")).completed = true
  ∧ ((toggleTaskComplete ⟨[setCompletion "d1" true (mkTask demoTaskForm "1" "d0" "u")], freshProfile⟩
        "1" none "d2" (fun _ => false)).1.profile
       = (⟨[setCompletion "d1" true (mkTask demoTaskForm "1" "d0" "u")], freshProfile⟩ : AppState).profile
     ∧ (toggleTaskComplete ⟨[setCompletion "d1" true (mkTask demoTaskForm "1" "d0" "u")], freshProfile⟩
          "1" none "d2" (fun _ => false)).2 = []
     ∧ (toggleTaskComplete ⟨[setCompletion "d1" true (mkTask demoTaskForm "1" "d0" "u")], freshProfile⟩
          "1" none "d2" (fun _ => false)).1.tasks
         = (⟨[setCompletion "d1" true (mkTask demoTaskForm "1" "d0" "u")], freshProfile⟩ : AppState).tasks.map
             (fun t => if t.id == "1" then { t with completed := false, completed_at := none } else t)) :=
  ⟨by decide, by decide,
   untoggle_frame_c10 ⟨[setCompletion "d1" true (mkTask demoTaskForm "1" "d0" "u")], freshProfile⟩
     "1" "d2" (fun _ => false) (setCompletion "d1" true (mkTask demoTaskForm "1" "d0" "u"))
     (by decide) (by decide)⟩

end CyberGlow
